import Mathlib

/-!
  # Session resolution and handshake orchestration of the chat server

  A shallow embedding of src/server/server.go: the wire message union, the
  per-peer session store, the per-connection handler (identity validation,
  variant dispatch, handshake session resolution, handshake relay, chat
  decryption) and the outbound operations StartSession and SendChatMessage.

  Effects are made explicit: sends are recorded as a list of destination and
  message pairs, console prints as a list of events, and the Go failure modes
  (a log.Panic call, a slice index out of range, a nil pointer dereference)
  as constructors of an Outcome type. The protocol capability and the contact
  directory are external collaborators; their operations enter as data
  carried by the embedded values.
-/

namespace Chat

/-- Go byte slices: none models a nil slice, some holds the bytes. -/
abbrev GoBytes := Option (List Nat)

/-- Bytes of a Go string, as produced by converting a string to a byte slice. -/
def strBytes (s : String) : List Nat :=
  s.toList.map Char.toNat

/-- Go slice indexing, made total: some on an in-range index, none standing
for the out-of-range runtime fault. -/
def goIndex {α : Type} : List α → Nat → Option α
  | [], _ => none
  | a :: _, 0 => some a
  | _ :: l, n + 1 => goIndex l n

/-- Outcome of running a handler or an outbound operation: a normal result,
a log.Panic call with its text, a slice index out of range fault, a nil
pointer dereference, or the model ran out of scripted console input where
the Go code would keep prompting. -/
inductive Outcome (α : Type) where
  | ok (a : α)
  | panicked (msg : String)
  | indexOutOfRange
  | nilDeref
  | awaitingConsole
deriving Inhabited

/-- Sequencing of outcomes: a fault stops the computation. -/
def Outcome.bind {α β : Type} : Outcome α → (α → Outcome β) → Outcome β
  | Outcome.ok a, f => f a
  | Outcome.panicked m, _ => Outcome.panicked m
  | Outcome.indexOutOfRange, _ => Outcome.indexOutOfRange
  | Outcome.nilDeref, _ => Outcome.nilDeref
  | Outcome.awaitingConsole, _ => Outcome.awaitingConsole

/-- Error value of the protocol decrypt operation: the still-in-progress
handshake signal (protocol.OTRHandshakeStep) or an ordinary error text;
wrapped in Option, none standing for a nil error. -/
inductive ProtoErr where
  | otrHandshakeStep
  | other (e : String)
deriving DecidableEq

/-- Modelled from the spec: the protocol capability is an external
collaborator (package protocol, not under src); its operations are carried
as given functions on the embedded protocol value, following the
collaborator interface of the spec: decrypt, encrypt, the first handshake
payload with its error, the active flag and the protocol kind. -/
structure Proto where
  decryptFn : GoBytes → List GoBytes × Option ProtoErr
  encryptFn : GoBytes → List GoBytes × Option String
  isActive : Bool
  protoType : Nat
  newSessionFn : String × Option String

/-- db.User as read by server.go: username, MAC and IP. -/
structure User where
  username : String
  mac : String
  ip : String
deriving DecidableEq

/-- A contact directory entry as used by server.go (db collaborator), in
the field order of AddFriend: display name, MAC, IP, username. -/
structure Friend where
  displayName : String
  mac : String
  ip : String
  username : String
deriving DecidableEq

/-- Modelled from the spec: the identity fields every wire message carries
(message.go is not under src); the fields are those of the wire schema and
of the NewPayload, SourceID and DestID call sites in server.go. -/
structure Payload where
  sourceMAC : String
  sourceUsername : String
  destUsername : String
deriving DecidableEq

/-- Modelled from the spec: the wire message union of FriendMessage,
HandshakeMessage (round, protocol kind, session time, secret) and
ChatMessage (text), each over the shared identity payload. -/
inductive Message where
  | friendMsg (p : Payload)
  | handshake (p : Payload) (round : Nat) (protoType : Nat) (sessionTime : Nat) (secret : GoBytes)
  | chat (p : Payload) (text : GoBytes)

/-- The identity payload of a message, as SourceID and DestID read it. -/
def Message.payload : Message → Payload
  | Message.friendMsg p => p
  | Message.handshake p _ _ _ _ => p
  | Message.chat p _ => p

/-- Modelled from the spec: a Session (session.go is not under src) holds
the remote peer identity (the field sess.To of the Go code, named peer
here), the protocol value and the creation timestamp. -/
structure Session where
  peer : Friend
  proto : Proto
  startTime : Nat

/-- The state of a running server that server.go reads and writes: the
local user, the stored sessions and the contact directory (db collaborator). -/
structure ServerState where
  user : User
  sessions : List Session
  friends : List Friend

/-- db lookup by display name, as called by StartSession and SendChatMessage. -/
def GetFriendByDisplayName (st : ServerState) (displayName : String) : Option Friend :=
  st.friends.find? (fun f => f.displayName == displayName)

/-- db lookup by username and MAC, as called by handleConnection. -/
def GetFriendByUsernameAndMAC (st : ServerState) (username mac : String) : Option Friend :=
  st.friends.find? (fun f => f.username == username && f.mac == mac)

/-- server.go GetSessionsWithFriend: the stored sessions whose peer matches
the given MAC and username, in insertion order. -/
def GetSessionsWithFriend (st : ServerState) (friendMAC friendUsername : String) : List Session :=
  st.sessions.filter (fun sess => sess.peer.mac == friendMAC && sess.peer.username == friendUsername)

/-- Modelled from the spec: NewSessionFromUserAndMessage (session.go is not
under src) builds a session toward the friend carrying the protocol of the
given kind and the given creation time; mk is the protocol constructor of
the collaborator. -/
def NewSessionFromUserAndMessage (mk : Nat → Proto) (_user : User) (friend : Friend) (protoType sessionTime : Nat) : Session :=
  { peer := friend, proto := mk protoType, startTime := sessionTime }

/-- Console output events of the embedded server code. -/
inductive OutEvent where
  | receivedDebug (msg : Message)
  | line (s : String)
  | chatLine (displayName : String) (text : List Nat)

/-- Result of one handleConnection run that did not fault: the state after
the run, the messages sent (destination IP paired with the message) and the
printed events in order. -/
structure HandleResult where
  newState : ServerState
  sent : List (String × Message)
  printed : List OutEvent

/-- Result of an outbound operation: the returned error (none is a nil Go
error), the messages sent, the state after the call and the printed events. -/
structure OpResult where
  err : Option String
  sent : List (String × Message)
  newState : ServerState
  printed : List OutEvent

/-- The display-name prompt loop of the friend-request path: consume the
scripted console inputs, rejecting with a printed line any name already in
the directory, until a fresh name is read. -/
def promptLoop (friends : List Friend) : List String → List OutEvent × Option String
  | [] => ([], none)
  | n :: rest =>
    if friends.any (fun fr => fr.displayName == n) then
      (OutEvent.line ("You already have a friend named " ++ n) :: (promptLoop friends rest).1,
       (promptLoop friends rest).2)
    else ([], some n)

/-- The FriendMessage case of handleConnection (server.go lines 68 to 85):
on an unknown source, announce the request, prompt for a display name until
an unused one is given, register the friendship and reply with a reciprocal
friend request; on a known source nothing happens. -/
def handleFriendBranch (st : ServerState) (sourceIP : String) (p : Payload) (friendRec : Option Friend) (consoleInputs : List String) (dbg : OutEvent) : Outcome HandleResult :=
  match friendRec with
  | some _ => Outcome.ok { newState := st, sent := [], printed := [dbg] }
  | none =>
    let intro := OutEvent.line ("You received a friend request from " ++ p.sourceUsername ++ " at " ++ sourceIP)
    match promptLoop st.friends consoleInputs with
    | (_, none) => Outcome.awaitingConsole
    | (evs, some name) =>
      Outcome.ok
        { newState := { st with friends := st.friends ++ [{ displayName := name, mac := p.sourceMAC, ip := sourceIP, username := p.sourceUsername }] },
          sent := [(sourceIP, Message.friendMsg { sourceMAC := st.user.mac, sourceUsername := st.user.username, destUsername := p.sourceUsername })],
          printed := [dbg, intro] ++ evs }

/-- The session resolution block of the HandshakeMessage case (server.go
lines 96 to 106): create a session exactly when the required count is
absent — two for self talk, one otherwise; when reusing, pick the session
at index round mod 2 for self talk and at index 0 otherwise. Returns the
session together with the created flag. -/
def handshakeResolve (mk : Nat → Proto) (user : User) (friend : Friend) (protoType startSessionTime : Nat) (sessions : List Session) (messageYourself : Bool) (round : Nat) : Outcome (Session × Bool) :=
  if (sessions.length ≠ 2 ∧ messageYourself = true) ∨ (sessions.length ≠ 1 ∧ messageYourself = false) then
    Outcome.ok (NewSessionFromUserAndMessage mk user friend protoType startSessionTime, true)
  else if sessions.length = 2 ∧ messageYourself = true then
    match goIndex sessions (round % 2) with
    | some sess => Outcome.ok (sess, false)
    | none => Outcome.indexOutOfRange
  else
    match goIndex sessions 0 with
    | some sess => Outcome.ok (sess, false)
    | none => Outcome.indexOutOfRange

/-- The session selection of the ChatMessage case (server.go lines 133 to
140): the session at index 1 when the sender is the local user, the one at
index 0 otherwise; no session is ever created here. -/
def chatSelect (sessions : List Session) (messageYourself : Bool) : Outcome Session :=
  if messageYourself = true then
    match goIndex sessions 1 with
    | some sess => Outcome.ok sess
    | none => Outcome.indexOutOfRange
  else
    match goIndex sessions 0 with
    | some sess => Outcome.ok sess
    | none => Outcome.indexOutOfRange

/-- Follows the wording of the spec, for comparison with chatSelect: for a
self talk chat message the reading session is the stored one whose creation
time differs from the session time the sender declares. -/
def chatSelectTimestampSpec (sessions : List Session) (declaredSessionTime : Nat) : Option Session :=
  (sessions.take 2).find? (fun sess => sess.startTime != declaredSessionTime)

/-- The HandshakeMessage case of handleConnection (server.go lines 86 to
131): requires friendship, resolves or creates the session, appends a
created session to the store, feeds the secret to the protocol decrypt,
relays every intermediate step back to the source with the round increased
by one (stamping the current time as session time exactly when this
exchange created the session), raises a genuine decrypt error through
log.Panic, and on a nil error simply ends the dispatch. -/
def handleHandshakeBranch (mk : Nat → Proto) (st : ServerState) (sourceIP : String) (p : Payload) (round protoType startSessionTime : Nat) (secret : GoBytes) (now : Nat) (friendRec : Option Friend) (messageYourself : Bool) (sessions : List Session) (dbg : OutEvent) : Outcome HandleResult :=
  match friendRec with
  | none => Outcome.panicked "You must be a friend to participate in a handshake"
  | some friend =>
    Outcome.bind (handshakeResolve mk st.user friend protoType startSessionTime sessions messageYourself round) fun res =>
      let sess := res.1
      let createdSession := res.2
      let st1 := if createdSession = true then { st with sessions := st.sessions ++ [sess] } else st
      let decRes := sess.proto.decryptFn secret
      match decRes.2 with
      | some ProtoErr.otrHandshakeStep =>
        Outcome.ok
          { newState := st1,
            sent := decRes.1.map (fun stepMessage =>
              (sourceIP,
               Message.handshake
                 { sourceMAC := st.user.mac, sourceUsername := st.user.username, destUsername := p.sourceUsername }
                 (round + 1) protoType (if createdSession = true then now else 0) stepMessage)),
            printed := [dbg] }
      | some (ProtoErr.other e) => Outcome.panicked ("ReceiveMessage: " ++ e)
      | none => Outcome.ok { newState := st1, sent := [], printed := [dbg] }

/-- The ChatMessage case of handleConnection (server.go lines 132 to 146):
select the session by position, decrypt discarding the error, and print the
decoded line exactly when the protocol is active and the first decrypted
chunk is not nil. -/
def handleChatBranch (st : ServerState) (_p : Payload) (text : GoBytes) (friendRec : Option Friend) (messageYourself : Bool) (sessions : List Session) (dbg : OutEvent) : Outcome HandleResult :=
  Outcome.bind (chatSelect sessions messageYourself) fun sess =>
    let decRes := sess.proto.decryptFn text
    if sess.proto.isActive = true then
      match goIndex decRes.1 0 with
      | none => Outcome.indexOutOfRange
      | some none => Outcome.ok { newState := st, sent := [], printed := [dbg] }
      | some (some bytes) =>
        match friendRec with
        | none => Outcome.nilDeref
        | some f => Outcome.ok { newState := st, sent := [], printed := [dbg, OutEvent.chatLine f.displayName bytes] }
    else Outcome.ok { newState := st, sent := [], printed := [dbg] }

/-- server.go handleConnection after a successful decode of one message:
reject empty source identity, drop messages not addressed to the local
user, then dispatch on the message variant; now is the reading of the
clock taken by the handshake relay, consoleInputs scripts the console
collaborator of the friend path. -/
def handleConnection (mk : Nat → Proto) (st : ServerState) (sourceIP : String) (msg : Message) (now : Nat) (consoleInputs : List String) : Outcome HandleResult :=
  let dbg := OutEvent.receivedDebug msg
  let p := msg.payload
  if p.sourceMAC = "" ∨ p.sourceUsername = "" then
    Outcome.panicked "Received ill-formatted message"
  else if p.destUsername ≠ st.user.username then
    Outcome.ok { newState := st, sent := [], printed := [dbg, OutEvent.line "Received a message but it was not for me."] }
  else
    let messageYourself := p.sourceMAC == st.user.mac && p.sourceUsername == st.user.username
    let sessions := GetSessionsWithFriend st p.sourceMAC p.sourceUsername
    let friendRec := GetFriendByUsernameAndMAC st p.sourceUsername p.sourceMAC
    match msg with
    | Message.friendMsg _ => handleFriendBranch st sourceIP p friendRec consoleInputs dbg
    | Message.handshake _ round protoType startSessionTime secret =>
      handleHandshakeBranch mk st sourceIP p round protoType startSessionTime secret now friendRec messageYourself sessions dbg
    | Message.chat _ text => handleChatBranch st p text friendRec messageYourself sessions dbg

/-- server.go StartSession (lines 225 to 247): look up the friend by
display name — on a miss the code prints a complaint but carries on and the
following field access dereferences the nil friend; with at least one
stored session return nil at once; otherwise ask the protocol for its first
handshake payload (a failure is a log.Panic) and send it as round 0 with
the zero session time. The session store is not touched. -/
def StartSession (st : ServerState) (displayName : String) (proto : Proto) : Outcome OpResult :=
  match GetFriendByDisplayName st displayName with
  | none => Outcome.nilDeref
  | some friend =>
    let sessions := GetSessionsWithFriend st friend.mac friend.username
    if sessions.length ≠ 0 then
      Outcome.ok { err := none, sent := [], newState := st, printed := [] }
    else
      match proto.newSessionFn with
      | (_, some e) => Outcome.panicked ("StartSession: Error starting new session: " ++ e)
      | (firstMessage, none) =>
        let msg := Message.handshake
          { sourceMAC := st.user.mac, sourceUsername := st.user.username, destUsername := friend.username }
          0 proto.protoType 0 (some (strBytes firstMessage))
        Outcome.ok { err := none, sent := [(friend.ip, msg)], newState := st, printed := [] }

/-- server.go SendFriendRequest (lines 250 to 255): send a friend request
message to the given username at the given IP. -/
def SendFriendRequest (st : ServerState) (destIP destUsername : String) : OpResult :=
  { err := none,
    sent := [(destIP, Message.friendMsg { sourceMAC := st.user.mac, sourceUsername := st.user.username, destUsername := destUsername })],
    newState := st, printed := [] }

/-- server.go SendChatMessage (lines 258 to 278): resolve the friend by
display name (error on a miss), require at least one stored session (error
otherwise), encrypt the still-nil text of the fresh chat message, store the
first ciphertext chunk into the text field — and then overwrite the text
field with the plaintext bytes of the given message before sending to the
friend. The value put on the wire is the plaintext. -/
def SendChatMessage (st : ServerState) (friendDisplayName message : String) : Outcome OpResult :=
  match GetFriendByDisplayName st friendDisplayName with
  | none =>
    Outcome.ok { err := some ("Friend with display name " ++ friendDisplayName ++ " does not exist"),
                 sent := [], newState := st, printed := [] }
  | some friend =>
    let sessions := GetSessionsWithFriend st friend.mac friend.username
    if sessions.length = 0 then
      Outcome.ok { err := some ("Cannot communicate with " ++ friendDisplayName ++ " without an active session"),
                   sent := [], newState := st, printed := [] }
    else
      match goIndex sessions 0 with
      | none => Outcome.indexOutOfRange
      | some sess0 =>
        match sess0.proto.encryptFn none with
        | (_, some e) => Outcome.ok { err := some e, sent := [], newState := st, printed := [] }
        | (cyp, none) =>
          match goIndex cyp 0 with
          | none => Outcome.indexOutOfRange
          | some cyp0 =>
            let _textSetToCiphertext : GoBytes := cyp0
            let textOverwritten : GoBytes := some (strBytes message)
            let chatMsg := Message.chat
              { sourceMAC := st.user.mac, sourceUsername := st.user.username, destUsername := friend.username }
              textOverwritten
            Outcome.ok { err := none, sent := [(friend.ip, chatMsg)], newState := st, printed := [] }

/-! ## Shared evaluation lemmas -/

/-- Dispatch of a handshake message through the validity checks of
handleConnection. -/
theorem handleConnection_handshake_dispatch (mk : Nat → Proto) (st : ServerState) (sourceIP : String) (p : Payload) (round protoType startSessionTime : Nat) (secret : GoBytes) (now : Nat) (ci : List String)
    (hmac : ¬ p.sourceMAC = "") (huser : ¬ p.sourceUsername = "") (hdest : p.destUsername = st.user.username) :
    handleConnection mk st sourceIP (Message.handshake p round protoType startSessionTime secret) now ci =
      handleHandshakeBranch mk st sourceIP p round protoType startSessionTime secret now
        (GetFriendByUsernameAndMAC st p.sourceUsername p.sourceMAC)
        (p.sourceMAC == st.user.mac && p.sourceUsername == st.user.username)
        (GetSessionsWithFriend st p.sourceMAC p.sourceUsername)
        (OutEvent.receivedDebug (Message.handshake p round protoType startSessionTime secret)) := by
  simp [handleConnection, Message.payload, hmac, huser, hdest]

/-- Dispatch of a chat message through the validity checks of
handleConnection. -/
theorem handleConnection_chat_dispatch (mk : Nat → Proto) (st : ServerState) (sourceIP : String) (p : Payload) (text : GoBytes) (now : Nat) (ci : List String)
    (hmac : ¬ p.sourceMAC = "") (huser : ¬ p.sourceUsername = "") (hdest : p.destUsername = st.user.username) :
    handleConnection mk st sourceIP (Message.chat p text) now ci =
      handleChatBranch st p text
        (GetFriendByUsernameAndMAC st p.sourceUsername p.sourceMAC)
        (p.sourceMAC == st.user.mac && p.sourceUsername == st.user.username)
        (GetSessionsWithFriend st p.sourceMAC p.sourceUsername)
        (OutEvent.receivedDebug (Message.chat p text)) := by
  simp [handleConnection, Message.payload, hmac, huser, hdest]

/-- Evaluation of the handshake branch when decrypt signals an intermediate
handshake step: every chunk is relayed to the source with round plus one. -/
theorem handshakeBranch_step_eval (mk : Nat → Proto) (st : ServerState) (sourceIP : String) (p : Payload) (round protoType startSessionTime : Nat) (secret : GoBytes) (now : Nat) (friend : Friend) (my : Bool) (sessions : List Session) (dbg : OutEvent) (sess : Session) (created : Bool) (dec : List GoBytes)
    (hres : handshakeResolve mk st.user friend protoType startSessionTime sessions my round = Outcome.ok (sess, created))
    (hdec : sess.proto.decryptFn secret = (dec, some ProtoErr.otrHandshakeStep)) :
    handleHandshakeBranch mk st sourceIP p round protoType startSessionTime secret now (some friend) my sessions dbg =
      Outcome.ok
        { newState := if created = true then { st with sessions := st.sessions ++ [sess] } else st,
          sent := dec.map (fun stepMessage =>
            (sourceIP,
             Message.handshake
               { sourceMAC := st.user.mac, sourceUsername := st.user.username, destUsername := p.sourceUsername }
               (round + 1) protoType (if created = true then now else 0) stepMessage)),
          printed := [dbg] } := by
  simp only [handleHandshakeBranch, hres, Outcome.bind, hdec]

/-- Evaluation of the handshake branch when decrypt returns a nil error: the
dispatch simply ends with no reply and no delivery. -/
theorem handshakeBranch_nil_eval (mk : Nat → Proto) (st : ServerState) (sourceIP : String) (p : Payload) (round protoType startSessionTime : Nat) (secret : GoBytes) (now : Nat) (friend : Friend) (my : Bool) (sessions : List Session) (dbg : OutEvent) (sess : Session) (created : Bool) (dec : List GoBytes)
    (hres : handshakeResolve mk st.user friend protoType startSessionTime sessions my round = Outcome.ok (sess, created))
    (hdec : sess.proto.decryptFn secret = (dec, none)) :
    handleHandshakeBranch mk st sourceIP p round protoType startSessionTime secret now (some friend) my sessions dbg =
      Outcome.ok
        { newState := if created = true then { st with sessions := st.sessions ++ [sess] } else st,
          sent := [], printed := [dbg] } := by
  simp only [handleHandshakeBranch, hres, Outcome.bind, hdec]

/-- Evaluation of the handshake branch when decrypt returns a genuine error:
the handler raises it through log.Panic. -/
theorem handshakeBranch_err_eval (mk : Nat → Proto) (st : ServerState) (sourceIP : String) (p : Payload) (round protoType startSessionTime : Nat) (secret : GoBytes) (now : Nat) (friend : Friend) (my : Bool) (sessions : List Session) (dbg : OutEvent) (sess : Session) (created : Bool) (dec : List GoBytes) (e : String)
    (hres : handshakeResolve mk st.user friend protoType startSessionTime sessions my round = Outcome.ok (sess, created))
    (hdec : sess.proto.decryptFn secret = (dec, some (ProtoErr.other e))) :
    handleHandshakeBranch mk st sourceIP p round protoType startSessionTime secret now (some friend) my sessions dbg =
      Outcome.panicked ("ReceiveMessage: " ++ e) := by
  simp only [handleHandshakeBranch, hres, Outcome.bind, hdec]

/-- The list read by goIndex at an index past the length is exhausted. -/
theorem goIndex_eq_none {α : Type} (l : List α) (n : Nat) (h : l.length ≤ n) : goIndex l n = none := by
  induction l generalizing n with
  | nil => cases n <;> rfl
  | cons a l ih =>
    cases n with
    | zero => simp at h
    | succ m => exact ih m (by simpa using h)

/-! ## Concrete values for witnesses and counterexamples -/

/-- A protocol still in a handshake: decrypt echoes its input as one step
chunk and reports the in-progress signal. -/
def protoStep : Proto :=
  { decryptFn := fun b => ([b], some ProtoErr.otrHandshakeStep),
    encryptFn := fun _ => ([some [9, 9]], none),
    isActive := false, protoType := 1,
    newSessionFn := ("hello0", none) }

/-- An established protocol: decrypt yields one readable chunk with a nil
error and the protocol is active. -/
def protoDone : Proto :=
  { decryptFn := fun _ => ([some [7, 7]], none),
    encryptFn := fun _ => ([some [9, 9]], none),
    isActive := true, protoType := 1,
    newSessionFn := ("hello0", none) }

/-- An established protocol whose decrypt yields no chunk at all. -/
def protoQuiet : Proto :=
  { decryptFn := fun _ => ([none], none),
    encryptFn := fun _ => ([some [9, 9]], none),
    isActive := true, protoType := 1,
    newSessionFn := ("hello0", none) }

/-- An active protocol decrypting everything to the chunk 65. -/
def protoA : Proto :=
  { decryptFn := fun _ => ([some [65]], none),
    encryptFn := fun _ => ([some [9, 9]], none),
    isActive := true, protoType := 1,
    newSessionFn := ("hello0", none) }

/-- An active protocol decrypting everything to the chunk 66. -/
def protoB : Proto :=
  { decryptFn := fun _ => ([some [66]], none),
    encryptFn := fun _ => ([some [9, 9]], none),
    isActive := true, protoType := 1,
    newSessionFn := ("hello0", none) }

/-- Protocol constructor handing out the in-handshake protocol. -/
def mkEx : Nat → Proto := fun _ => protoStep

/-- Protocol constructor handing out the quiet established protocol. -/
def mkQuiet : Nat → Proto := fun _ => protoQuiet

/-- The local user of the concrete runs. -/
def exUser : User := { username := "alice", mac := "M", ip := "1.1.1.1" }

/-- A remote friend named bob. -/
def bobFriend : Friend := { displayName := "bob", mac := "FM", ip := "2.2.2.2", username := "bobu" }

/-- The directory entry the user keeps for herself (self talk). -/
def selfFriend : Friend := { displayName := "me", mac := "M", ip := "1.1.1.1", username := "alice" }

/-- An established session with bob. -/
def sessBobDone : Session := { peer := bobFriend, proto := protoDone, startTime := 3 }

/-- A session with bob still in its handshake. -/
def sessBobStep : Session := { peer := bobFriend, proto := protoStep, startTime := 3 }

/-- First self-talk session, created at time 0, decrypting to 65. -/
def sessTimeA : Session := { peer := selfFriend, proto := protoA, startTime := 0 }

/-- Second self-talk session, created at time 5, decrypting to 66. -/
def sessTimeB : Session := { peer := selfFriend, proto := protoB, startTime := 5 }

/-- A state knowing bob with no session yet. -/
def stBobNoSess : ServerState := { user := exUser, sessions := [], friends := [bobFriend] }

/-- A state with one established session with bob. -/
def stBobDone : ServerState := { user := exUser, sessions := [sessBobDone], friends := [bobFriend] }

/-- A state with one in-handshake session with bob. -/
def stBobStep : ServerState := { user := exUser, sessions := [sessBobStep], friends := [bobFriend] }

/-- A state with the two self-talk sessions. -/
def stSelf : ServerState := { user := exUser, sessions := [sessTimeA, sessTimeB], friends := [selfFriend] }

/-- A state knowing only the self entry and holding no session. -/
def stSelfNoSess : ServerState := { user := exUser, sessions := [], friends := [selfFriend] }

/-- The identity payload of a message from bob to alice. -/
def pBob : Payload := { sourceMAC := "FM", sourceUsername := "bobu", destUsername := "alice" }

/-- The identity payload of a self-talk message. -/
def pSelf : Payload := { sourceMAC := "M", sourceUsername := "alice", destUsername := "alice" }

/-- A state holding only one self-talk session instead of the two required. -/
def stSelfOne : ServerState := { user := exUser, sessions := [sessTimeA], friends := [selfFriend] }

/-- With at most one stored session, the self-talk chat selection reads the
list out of range. -/
theorem chatSelect_true_oor (sessions : List Session) (h : sessions.length ≤ 1) :
    chatSelect sessions true = Outcome.indexOutOfRange := by
  unfold chatSelect
  rw [if_pos rfl, goIndex_eq_none sessions 1 h]

/-- With an empty store, the non-self chat selection reads the list out of
range. -/
theorem chatSelect_false_oor (sessions : List Session) (h : sessions.length = 0) :
    chatSelect sessions false = Outcome.indexOutOfRange := by
  unfold chatSelect
  rw [if_neg (by simp), goIndex_eq_none sessions 0 (by omega)]

/-- Any non-faulting run of the chat branch leaves the state unchanged: no
session is created and nothing else in the state is touched. -/
theorem chatBranch_newState (st : ServerState) (p : Payload) (text : GoBytes) (friendRec : Option Friend) (my : Bool) (sessions : List Session) (dbg : OutEvent) (r : HandleResult)
    (h : handleChatBranch st p text friendRec my sessions dbg = Outcome.ok r) :
    r.newState = st := by
  unfold handleChatBranch at h
  cases hsel : chatSelect sessions my <;> rw [hsel] at h <;> simp only [Outcome.bind] at h
  case ok sess =>
    split at h
    · split at h
      · exact Outcome.noConfusion h
      · rw [Outcome.ok.injEq] at h; subst h; rfl
      · split at h
        · exact Outcome.noConfusion h
        · rw [Outcome.ok.injEq] at h; subst h; rfl
    · rw [Outcome.ok.injEq] at h; subst h; rfl
  all_goals exact Outcome.noConfusion h

/-! ## Claims -/

/-- C2: for an inbound handshake message a session is created exactly when
the count differs from the required one (two for self talk, one otherwise);
otherwise the session at index round mod 2 is reused for self talk and the
one at index 0 otherwise, so that self-talk rounds 0 and 1 resolve to the
two different stored sessions; and handleConnection appends the created
session to the store, leaving the store unchanged on reuse. -/
theorem c2_handshake_session_resolution :
    (∀ (mk : Nat → Proto) (u : User) (f : Friend) (pt stime round : Nat) (sessions : List Session) (my : Bool),
       (sessions.length ≠ 2 ∧ my = true) ∨ (sessions.length ≠ 1 ∧ my = false) →
       handshakeResolve mk u f pt stime sessions my round =
         Outcome.ok (NewSessionFromUserAndMessage mk u f pt stime, true))
  ∧ (∀ (mk : Nat → Proto) (u : User) (f : Friend) (pt stime round : Nat) (sessions : List Session) (sess : Session),
       sessions.length = 2 → goIndex sessions (round % 2) = some sess →
       handshakeResolve mk u f pt stime sessions true round = Outcome.ok (sess, false))
  ∧ (∀ (mk : Nat → Proto) (u : User) (f : Friend) (pt stime round : Nat) (sessions : List Session) (sess : Session),
       sessions.length = 1 → goIndex sessions 0 = some sess →
       handshakeResolve mk u f pt stime sessions false round = Outcome.ok (sess, false))
  ∧ (∀ (mk : Nat → Proto) (u : User) (f : Friend) (pt stime : Nat) (s0 s1 : Session),
       handshakeResolve mk u f pt stime [s0, s1] true 0 = Outcome.ok (s0, false) ∧
       handshakeResolve mk u f pt stime [s0, s1] true 1 = Outcome.ok (s1, false))
  ∧ (∀ (mk : Nat → Proto) (st : ServerState) (sourceIP : String) (p : Payload) (round pt stime : Nat) (secret : GoBytes) (now : Nat) (ci : List String) (friend : Friend) (sess : Session) (created : Bool) (dec : List GoBytes) (derr : Option ProtoErr) (r : HandleResult),
       ¬ p.sourceMAC = "" → ¬ p.sourceUsername = "" → p.destUsername = st.user.username →
       GetFriendByUsernameAndMAC st p.sourceUsername p.sourceMAC = some friend →
       handshakeResolve mk st.user friend pt stime (GetSessionsWithFriend st p.sourceMAC p.sourceUsername)
         (p.sourceMAC == st.user.mac && p.sourceUsername == st.user.username) round = Outcome.ok (sess, created) →
       sess.proto.decryptFn secret = (dec, derr) →
       handleConnection mk st sourceIP (Message.handshake p round pt stime secret) now ci = Outcome.ok r →
       r.newState.sessions = st.sessions ++ (if created = true then [sess] else [])) := by
  refine ⟨?_, ?_, ?_, ?_, ?_⟩
  · intro mk u f pt stime round sessions my h
    simp only [handshakeResolve, if_pos h]
  · intro mk u f pt stime round sessions sess h2 hidx
    simp only [handshakeResolve]
    rw [if_neg (by simp [h2]), if_pos (by simp [h2]), hidx]
  · intro mk u f pt stime round sessions sess h1 hidx
    simp only [handshakeResolve]
    rw [if_neg (by simp [h1]), if_neg (by simp [h1]), hidx]
  · intro mk u f pt stime s0 s1
    exact ⟨rfl, rfl⟩
  · intro mk st sourceIP p round pt stime secret now ci friend sess created dec derr r
    intro hmac huser hdest hfr hres hdec hrun
    rw [handleConnection_handshake_dispatch mk st sourceIP p round pt stime secret now ci hmac huser hdest, hfr] at hrun
    match derr with
    | some ProtoErr.otrHandshakeStep =>
      rw [handshakeBranch_step_eval mk st sourceIP p round pt stime secret now friend _ _ _ sess created dec hres hdec] at hrun
      rw [Outcome.ok.injEq] at hrun
      subst hrun
      cases created <;> simp
    | some (ProtoErr.other e) =>
      rw [handshakeBranch_err_eval mk st sourceIP p round pt stime secret now friend _ _ _ sess created dec e hres hdec] at hrun
      exact Outcome.noConfusion hrun
    | none =>
      rw [handshakeBranch_nil_eval mk st sourceIP p round pt stime secret now friend _ _ _ sess created dec hres hdec] at hrun
      rw [Outcome.ok.injEq] at hrun
      subst hrun
      cases created <;> simp

/-- Witness for C2: with no stored session a self-addressed handshake
creates a new session. -/
theorem c2_witness :
    ((([] : List Session).length ≠ 2 ∧ true = true) ∨ (([] : List Session).length ≠ 1 ∧ true = false))
  ∧ handshakeResolve mkEx exUser bobFriend 1 4 [] true 5 =
      Outcome.ok (NewSessionFromUserAndMessage mkEx exUser bobFriend 1 4, true) :=
  ⟨Or.inl ⟨by decide, rfl⟩,
   c2_handshake_session_resolution.1 mkEx exUser bobFriend 1 4 5 [] true (Or.inl ⟨by decide, rfl⟩)⟩

/-- C8: sending a chat message to an existing friend with zero stored
sessions returns the no-active-session error and sends nothing. -/
theorem c8_chat_requires_session (st : ServerState) (displayName message : String) (friend : Friend)
    (hfr : GetFriendByDisplayName st displayName = some friend)
    (hz : (GetSessionsWithFriend st friend.mac friend.username).length = 0) :
    SendChatMessage st displayName message =
      Outcome.ok { err := some ("Cannot communicate with " ++ displayName ++ " without an active session"),
                   sent := [], newState := st, printed := [] } := by
  simp only [SendChatMessage, hfr]
  rw [if_pos hz]

/-- Witness for C8 at the state knowing bob with no session. -/
theorem c8_witness :
    GetFriendByDisplayName stBobNoSess "bob" = some bobFriend ∧
    (GetSessionsWithFriend stBobNoSess bobFriend.mac bobFriend.username).length = 0 ∧
    SendChatMessage stBobNoSess "bob" "hi" =
      Outcome.ok { err := some ("Cannot communicate with " ++ "bob" ++ " without an active session"),
                   sent := [], newState := stBobNoSess, printed := [] } :=
  ⟨rfl, rfl, c8_chat_requires_session stBobNoSess "bob" "hi" bobFriend rfl rfl⟩

/-- C9: a further StartSession for a peer that already has a stored session
returns a nil error at once, sending nothing and leaving the state (hence
the session store) unchanged. -/
theorem c9_start_session_idempotent (st : ServerState) (displayName : String) (proto : Proto) (friend : Friend)
    (hfr : GetFriendByDisplayName st displayName = some friend)
    (hne : (GetSessionsWithFriend st friend.mac friend.username).length ≠ 0) :
    StartSession st displayName proto =
      Outcome.ok { err := none, sent := [], newState := st, printed := [] } := by
  simp only [StartSession, hfr]
  rw [if_pos hne]

/-- Witness for C9 at the state with one established session with bob. -/
theorem c9_witness :
    GetFriendByDisplayName stBobDone "bob" = some bobFriend ∧
    (GetSessionsWithFriend stBobDone bobFriend.mac bobFriend.username).length ≠ 0 ∧
    StartSession stBobDone "bob" protoStep =
      Outcome.ok { err := none, sent := [], newState := stBobDone, printed := [] } :=
  ⟨rfl, by decide, c9_start_session_idempotent stBobDone "bob" protoStep bobFriend rfl (by decide)⟩

/-- C10: an inbound handshake message at round k whose decrypt reports an
intermediate step is answered by one reply per produced chunk, each a
handshake message with round k plus one, the incoming protocol kind echoed
and the session time stamped with the clock exactly when this exchange
created the session; every reply goes back to the source and the handler
does nothing further. -/
theorem c10_handshake_reply_relay (mk : Nat → Proto) (st : ServerState) (sourceIP : String) (p : Payload) (round protoType startSessionTime : Nat) (secret : GoBytes) (now : Nat) (ci : List String) (friend : Friend) (sess : Session) (created : Bool) (dec : List GoBytes)
    (hmac : ¬ p.sourceMAC = "") (huser : ¬ p.sourceUsername = "")
    (hdest : p.destUsername = st.user.username)
    (hfr : GetFriendByUsernameAndMAC st p.sourceUsername p.sourceMAC = some friend)
    (hres : handshakeResolve mk st.user friend protoType startSessionTime
              (GetSessionsWithFriend st p.sourceMAC p.sourceUsername)
              (p.sourceMAC == st.user.mac && p.sourceUsername == st.user.username) round
            = Outcome.ok (sess, created))
    (hdec : sess.proto.decryptFn secret = (dec, some ProtoErr.otrHandshakeStep)) :
    handleConnection mk st sourceIP (Message.handshake p round protoType startSessionTime secret) now ci =
      Outcome.ok
        { newState := if created = true then { st with sessions := st.sessions ++ [sess] } else st,
          sent := dec.map (fun stepMessage =>
            (sourceIP,
             Message.handshake
               { sourceMAC := st.user.mac, sourceUsername := st.user.username, destUsername := p.sourceUsername }
               (round + 1) protoType (if created = true then now else 0) stepMessage)),
          printed := [OutEvent.receivedDebug (Message.handshake p round protoType startSessionTime secret)] } := by
  rw [handleConnection_handshake_dispatch mk st sourceIP p round protoType startSessionTime secret now ci hmac huser hdest, hfr]
  exact handshakeBranch_step_eval mk st sourceIP p round protoType startSessionTime secret now friend _ _ _ sess created dec hres hdec

/-- Witness for C10: a handshake at round 2 from bob over the in-handshake
session is relayed back as one reply at round 3 with no time stamp. -/
theorem c10_witness :
    ¬ pBob.sourceMAC = "" ∧ ¬ pBob.sourceUsername = "" ∧
    pBob.destUsername = stBobStep.user.username ∧
    GetFriendByUsernameAndMAC stBobStep pBob.sourceUsername pBob.sourceMAC = some bobFriend ∧
    handshakeResolve mkEx stBobStep.user bobFriend 1 7
        (GetSessionsWithFriend stBobStep pBob.sourceMAC pBob.sourceUsername)
        (pBob.sourceMAC == stBobStep.user.mac && pBob.sourceUsername == stBobStep.user.username) 2
      = Outcome.ok (sessBobStep, false) ∧
    sessBobStep.proto.decryptFn (some [2]) = ([some [2]], some ProtoErr.otrHandshakeStep) ∧
    handleConnection mkEx stBobStep "2.2.2.2" (Message.handshake pBob 2 1 7 (some [2])) 99 [] =
      Outcome.ok
        { newState := if false = true then { stBobStep with sessions := stBobStep.sessions ++ [sessBobStep] } else stBobStep,
          sent := [(some [2] : GoBytes)].map (fun stepMessage =>
            ("2.2.2.2",
             Message.handshake
               { sourceMAC := stBobStep.user.mac, sourceUsername := stBobStep.user.username, destUsername := pBob.sourceUsername }
               (2 + 1) 1 (if false = true then 99 else 0) stepMessage)),
          printed := [OutEvent.receivedDebug (Message.handshake pBob 2 1 7 (some [2]))] } :=
  ⟨by decide, by decide, rfl, rfl, rfl, rfl,
   c10_handshake_reply_relay mkEx stBobStep "2.2.2.2" pBob 2 1 7 (some [2]) 99 [] bobFriend sessBobStep false [some [2]]
     (by decide) (by decide) rfl rfl rfl rfl⟩

/-- C1 fails on the code: SendChatMessage computes a ciphertext chunk but
then overwrites the text field with the plaintext bytes before sending; at
the concrete state with one established session with bob, the message on
the wire carries the plaintext bytes of hi, not the ciphertext chunk the
protocol produced. -/
theorem c1_wire_text_is_plaintext :
    SendChatMessage stBobDone "bob" "hi" =
      Outcome.ok
        { err := none,
          sent := [(bobFriend.ip,
            Message.chat
              { sourceMAC := exUser.mac, sourceUsername := exUser.username, destUsername := bobFriend.username }
              (some (strBytes "hi")))],
          newState := stBobDone, printed := [] }
  ∧ (sessBobDone.proto.encryptFn none).1 = [some [9, 9]]
  ∧ (some (strBytes "hi") : GoBytes) ≠ (some [9, 9] : GoBytes) :=
  ⟨rfl, rfl, by decide⟩

/-- C6 fails on the code for StartSession: with no friend called ghost the
lookup misses, the code only prints a complaint and carries on, and the
following field access dereferences the nil friend — a process-fatal fault
instead of a returned error; SendChatMessage does return the error. -/
theorem c6_start_session_nil_deref :
    StartSession stBobNoSess "ghost" protoStep = Outcome.nilDeref
  ∧ SendChatMessage stBobNoSess "ghost" "hi" =
      Outcome.ok { err := some ("Friend with display name " ++ "ghost" ++ " does not exist"),
                   sent := [], newState := stBobNoSess, printed := [] } :=
  ⟨rfl, rfl⟩

/-- C7 fails on the code: a successful StartSession toward bob, who has no
stored session, sends the round 0 handshake but leaves the session store
unchanged — afterwards the store still holds no session for bob. -/
theorem c7_start_session_counterexample :
    StartSession stBobNoSess "bob" protoStep =
      Outcome.ok
        { err := none,
          sent := [(bobFriend.ip,
            Message.handshake
              { sourceMAC := exUser.mac, sourceUsername := exUser.username, destUsername := bobFriend.username }
              0 protoStep.protoType 0 (some (strBytes "hello0")))],
          newState := stBobNoSess, printed := [] }
  ∧ GetSessionsWithFriend stBobNoSess bobFriend.mac bobFriend.username = [] :=
  ⟨rfl, rfl⟩

/-- C7 amended: StartSession itself never adds a session — a successful call
for a sessionless friend leaves the state unchanged and only sends the
round 0 handshake; the session is created when a handshake message arrives,
handleConnection creating one for any peer whose session list is empty. -/
theorem c7_start_session_amended :
    (∀ (st : ServerState) (displayName : String) (proto : Proto) (friend : Friend) (firstMessage : String),
       GetFriendByDisplayName st displayName = some friend →
       (GetSessionsWithFriend st friend.mac friend.username).length = 0 →
       proto.newSessionFn = (firstMessage, none) →
       StartSession st displayName proto =
         Outcome.ok
           { err := none,
             sent := [(friend.ip,
               Message.handshake
                 { sourceMAC := st.user.mac, sourceUsername := st.user.username, destUsername := friend.username }
                 0 proto.protoType 0 (some (strBytes firstMessage)))],
             newState := st, printed := [] })
  ∧ (∀ (mk : Nat → Proto) (u : User) (f : Friend) (pt stime round : Nat) (my : Bool),
       handshakeResolve mk u f pt stime [] my round =
         Outcome.ok (NewSessionFromUserAndMessage mk u f pt stime, true)) := by
  constructor
  · intro st displayName proto friend firstMessage hfr hz hns
    simp only [StartSession, hfr]
    rw [if_neg (by omega), hns]
  · intro mk u f pt stime round my
    cases my <;> rfl

/-- Witness for C7 at the state knowing bob with no session. -/
theorem c7_witness :
    GetFriendByDisplayName stBobNoSess "bob" = some bobFriend ∧
    (GetSessionsWithFriend stBobNoSess bobFriend.mac bobFriend.username).length = 0 ∧
    protoStep.newSessionFn = ("hello0", none) ∧
    StartSession stBobNoSess "bob" protoStep =
      Outcome.ok
        { err := none,
          sent := [(bobFriend.ip,
            Message.handshake
              { sourceMAC := stBobNoSess.user.mac, sourceUsername := stBobNoSess.user.username, destUsername := bobFriend.username }
              0 protoStep.protoType 0 (some (strBytes "hello0")))],
          newState := stBobNoSess, printed := [] } :=
  ⟨rfl, rfl, rfl, c7_start_session_amended.1 stBobNoSess "bob" protoStep bobFriend "hello0" rfl rfl rfl⟩

/-- C4 fails on the code: a handshake message from bob whose decrypt
completes with a nil error, over an active session yielding a readable
chunk, is not processed further — no reply, no printed chat line; the Go
switch case simply ends instead of falling through to chat handling. -/
theorem c4_fallthrough_counterexample :
    handleConnection mkEx stBobDone "2.2.2.2" (Message.handshake pBob 2 1 3 (some [2])) 99 [] =
      Outcome.ok { newState := stBobDone, sent := [],
                   printed := [OutEvent.receivedDebug (Message.handshake pBob 2 1 3 (some [2]))] }
  ∧ sessBobDone.proto.decryptFn (some [2]) = ([some [7, 7]], none)
  ∧ sessBobDone.proto.isActive = true :=
  ⟨rfl, rfl, rfl⟩

/-- C4 amended: when decrypt of an inbound handshake message returns a nil
error the handler ends the dispatch there: no reply is sent, no payload is
delivered (nothing beyond the received debug line is printed), and the
store gains at most the single session this exchange may have created; no
chat handling of the same message takes place. -/
theorem c4_no_fallthrough_amended (mk : Nat → Proto) (st : ServerState) (sourceIP : String) (p : Payload) (round protoType startSessionTime : Nat) (secret : GoBytes) (now : Nat) (ci : List String) (friend : Friend) (sess : Session) (created : Bool) (dec : List GoBytes)
    (hmac : ¬ p.sourceMAC = "") (huser : ¬ p.sourceUsername = "")
    (hdest : p.destUsername = st.user.username)
    (hfr : GetFriendByUsernameAndMAC st p.sourceUsername p.sourceMAC = some friend)
    (hres : handshakeResolve mk st.user friend protoType startSessionTime
              (GetSessionsWithFriend st p.sourceMAC p.sourceUsername)
              (p.sourceMAC == st.user.mac && p.sourceUsername == st.user.username) round
            = Outcome.ok (sess, created))
    (hdec : sess.proto.decryptFn secret = (dec, none)) :
    handleConnection mk st sourceIP (Message.handshake p round protoType startSessionTime secret) now ci =
      Outcome.ok
        { newState := if created = true then { st with sessions := st.sessions ++ [sess] } else st,
          sent := [],
          printed := [OutEvent.receivedDebug (Message.handshake p round protoType startSessionTime secret)] } := by
  rw [handleConnection_handshake_dispatch mk st sourceIP p round protoType startSessionTime secret now ci hmac huser hdest, hfr]
  exact handshakeBranch_nil_eval mk st sourceIP p round protoType startSessionTime secret now friend _ _ _ sess created dec hres hdec

/-- Witness for C4 at a completing self-addressed handshake that creates the
session and delivers nothing. -/
theorem c4_witness :
    (¬ pSelf.sourceMAC = "") ∧ (¬ pSelf.sourceUsername = "") ∧
    pSelf.destUsername = stSelfNoSess.user.username ∧
    GetFriendByUsernameAndMAC stSelfNoSess pSelf.sourceUsername pSelf.sourceMAC = some selfFriend ∧
    handshakeResolve mkQuiet stSelfNoSess.user selfFriend 1 7
        (GetSessionsWithFriend stSelfNoSess pSelf.sourceMAC pSelf.sourceUsername)
        (pSelf.sourceMAC == stSelfNoSess.user.mac && pSelf.sourceUsername == stSelfNoSess.user.username) 0
      = Outcome.ok (NewSessionFromUserAndMessage mkQuiet stSelfNoSess.user selfFriend 1 7, true) ∧
    (NewSessionFromUserAndMessage mkQuiet stSelfNoSess.user selfFriend 1 7).proto.decryptFn (some [2]) = ([none], none) ∧
    handleConnection mkQuiet stSelfNoSess "1.1.1.1" (Message.handshake pSelf 0 1 7 (some [2])) 42 [] =
      Outcome.ok
        { newState := if true = true then { stSelfNoSess with sessions := stSelfNoSess.sessions ++ [NewSessionFromUserAndMessage mkQuiet stSelfNoSess.user selfFriend 1 7] } else stSelfNoSess,
          sent := [],
          printed := [OutEvent.receivedDebug (Message.handshake pSelf 0 1 7 (some [2]))] } :=
  ⟨by decide, by decide, rfl, rfl, rfl, rfl,
   c4_no_fallthrough_amended mkQuiet stSelfNoSess "1.1.1.1" pSelf 0 1 7 (some [2]) 42 [] selfFriend
     (NewSessionFromUserAndMessage mkQuiet stSelfNoSess.user selfFriend 1 7) true [none]
     (by decide) (by decide) rfl rfl rfl rfl⟩

/-- C5 fails on the code: an inbound chat message from bob while no session
with bob exists makes the handler read the session list at index 0, an
out-of-range access — no no-active-session error is reported on the inbound
path. -/
theorem c5_chat_missing_session_counterexample :
    handleConnection mkEx stBobNoSess "2.2.2.2" (Message.chat pBob (some [1])) 0 [] = Outcome.indexOutOfRange :=
  rfl

/-- C5 amended: when the required sessions are absent — none for a non-self
sender, fewer than two for self talk — the inbound chat handler faults with
an out-of-range read of the session list instead of reporting an error. -/
theorem c5_chat_missing_session_amended (mk : Nat → Proto) (st : ServerState) (sourceIP : String) (p : Payload) (text : GoBytes) (now : Nat) (ci : List String)
    (hmac : ¬ p.sourceMAC = "") (huser : ¬ p.sourceUsername = "") (hdest : p.destUsername = st.user.username)
    (hcase : ((p.sourceMAC == st.user.mac && p.sourceUsername == st.user.username) = true
                ∧ (GetSessionsWithFriend st p.sourceMAC p.sourceUsername).length < 2)
           ∨ ((p.sourceMAC == st.user.mac && p.sourceUsername == st.user.username) = false
                ∧ (GetSessionsWithFriend st p.sourceMAC p.sourceUsername).length = 0)) :
    handleConnection mk st sourceIP (Message.chat p text) now ci = Outcome.indexOutOfRange := by
  rw [handleConnection_chat_dispatch mk st sourceIP p text now ci hmac huser hdest]
  rcases hcase with ⟨hmy, hlt⟩ | ⟨hmy, hz⟩
  · rw [hmy]
    unfold handleChatBranch
    rw [chatSelect_true_oor _ (by omega)]
    rfl
  · rw [hmy]
    unfold handleChatBranch
    rw [chatSelect_false_oor _ hz]
    rfl

/-- Witness for C5 at a self-talk state holding only one of the two
required sessions. -/
theorem c5_witness :
    (¬ pSelf.sourceMAC = "") ∧ (¬ pSelf.sourceUsername = "") ∧
    pSelf.destUsername = stSelfOne.user.username ∧
    (((pSelf.sourceMAC == stSelfOne.user.mac && pSelf.sourceUsername == stSelfOne.user.username) = true
        ∧ (GetSessionsWithFriend stSelfOne pSelf.sourceMAC pSelf.sourceUsername).length < 2)
     ∨ ((pSelf.sourceMAC == stSelfOne.user.mac && pSelf.sourceUsername == stSelfOne.user.username) = false
        ∧ (GetSessionsWithFriend stSelfOne pSelf.sourceMAC pSelf.sourceUsername).length = 0)) ∧
    handleConnection mkEx stSelfOne "1.1.1.1" (Message.chat pSelf (some [1])) 0 [] = Outcome.indexOutOfRange :=
  ⟨by decide, by decide, rfl, Or.inl ⟨rfl, by decide⟩,
   c5_chat_missing_session_amended mkEx stSelfOne "1.1.1.1" pSelf (some [1]) 0 []
     (by decide) (by decide) rfl (Or.inl ⟨rfl, by decide⟩)⟩

/-- C3 fails on the code: the self-talk chat handler picks the session at
index 1 unconditionally; with sessions created at times 0 and 5 and a
declared session time of 5, the timestamp rule of the claim picks the
session created at time 0, while the code decrypts with the session at
index 1, whose creation time equals the declared 5 — as the printed chunk
66 of its protocol shows. -/
theorem c3_chat_selection_counterexample :
    chatSelect [sessTimeA, sessTimeB] true = Outcome.ok sessTimeB
  ∧ chatSelectTimestampSpec [sessTimeA, sessTimeB] 5 = some sessTimeA
  ∧ sessTimeB.startTime = 5
  ∧ sessTimeA ≠ sessTimeB
  ∧ handleConnection mkEx stSelf "1.1.1.1" (Message.chat pSelf (some [1])) 0 [] =
      Outcome.ok { newState := stSelf, sent := [],
                   printed := [OutEvent.receivedDebug (Message.chat pSelf (some [1])),
                               OutEvent.chatLine "me" [66]] } :=
  ⟨rfl, rfl, rfl,
   fun h => by
     have h5 := congrArg Session.startTime h
     simp [sessTimeA, sessTimeB] at h5,
   rfl⟩

/-- C3 amended: for inbound chat no session is ever created — every
non-faulting run leaves the state unchanged — and the selection is purely
positional: the session at index 1 for self talk and at index 0 otherwise;
no carried field of the message takes part in the selection. -/
theorem c3_chat_selection_amended :
    (∀ (sessions : List Session) (sess : Session),
       goIndex sessions 1 = some sess → chatSelect sessions true = Outcome.ok sess)
  ∧ (∀ (sessions : List Session) (sess : Session),
       goIndex sessions 0 = some sess → chatSelect sessions false = Outcome.ok sess)
  ∧ (∀ (mk : Nat → Proto) (st : ServerState) (sourceIP : String) (p : Payload) (text : GoBytes) (now : Nat) (ci : List String) (r : HandleResult),
       handleConnection mk st sourceIP (Message.chat p text) now ci = Outcome.ok r → r.newState = st) := by
  refine ⟨?_, ?_, ?_⟩
  · intro sessions sess hidx
    unfold chatSelect
    rw [if_pos rfl, hidx]
  · intro sessions sess hidx
    unfold chatSelect
    rw [if_neg (by simp), hidx]
  · intro mk st sourceIP p text now ci r h
    by_cases hmac : p.sourceMAC = ""
    · simp only [handleConnection, Message.payload] at h
      rw [if_pos (Or.inl hmac)] at h
      exact Outcome.noConfusion h
    · by_cases huser : p.sourceUsername = ""
      · simp only [handleConnection, Message.payload] at h
        rw [if_pos (Or.inr huser)] at h
        exact Outcome.noConfusion h
      · by_cases hdest : p.destUsername = st.user.username
        · rw [handleConnection_chat_dispatch mk st sourceIP p text now ci hmac huser hdest] at h
          exact chatBranch_newState _ _ _ _ _ _ _ _ h
        · simp only [handleConnection, Message.payload] at h
          rw [if_neg (by simp [hmac, huser]), if_pos hdest] at h
          rw [Outcome.ok.injEq] at h
          subst h
          rfl

/-- Witness for C3 at a single-session store read by a non-self sender. -/
theorem c3_witness :
    goIndex [sessBobDone] 0 = some sessBobDone ∧
    chatSelect [sessBobDone] false = Outcome.ok sessBobDone :=
  ⟨rfl, c3_chat_selection_amended.2.1 [sessBobDone] sessBobDone rfl⟩

end Chat
